import Mathlib

/-!
Verification of the ShaderCopilot workflow engine, retry controller,
validation gate and WebSocket message handler.

The definitions below are a shallow embedding of the Python sources:
  Agent/src/shader_copilot/graphs/shader_gen/state.py
  Agent/src/shader_copilot/graphs/shader_gen/nodes.py
  Agent/src/shader_copilot/graphs/shader_gen/graph.py
  Agent/src/shader_copilot/server/messages.py
  Agent/src/shader_copilot/server/message_handler.py
LLM generation calls (the Generator capability) are abstracted as
oracles supplying the produced text; everything else is translated
directly from the source.
-/

set_option maxRecDepth 20000

namespace ShaderCopilot

/-! ## String helpers

Python `sub in s` substring membership, embedded as an executable check
over the character lists of the strings. -/

/-- Holds (`charsContains pat l = true`) iff `pat` occurs as a contiguous
sublist of `l` (Python substring membership on the decoded text). -/
def charsContains (pat : List Char) : List Char → Bool
  | [] => List.isPrefixOf pat []
  | c :: cs => List.isPrefixOf pat (c :: cs) || charsContains pat cs

/-- Python `pat in s` for strings. -/
def strContains (s pat : String) : Bool :=
  charsContains pat.data s.data

/-- Python truthiness of an `Optional[str]` / `Optional[bytes]` value:
`None` and the empty string are falsy. -/
def pyTruthy (o : Option String) : Bool :=
  match o with
  | none => false
  | some s => !(s == "")

/-! ## Task state (graphs/shader_gen/state.py)

`CompileResult` in state.py declares `status`, `shader_id`,
`errors : list[CompileError]`, `warnings`, `compile_time_ms`; the graph
nodes (nodes.py) and the Unity tool wrapper (tools/unity_tools.py)
instead use a boolean `success` attribute, and `finalize_failure`
(nodes.py line 406) joins `errors` as plain strings, which is also the
shape of the external reply (`errors:["line 10: syntax"]`).  The
embedding keeps the fields the graph path actually reads: `success`
and the error strings. -/

structure CompileResult where
  success : Bool := false
  errors : List String := []
  deriving Repr, DecidableEq

/-- The fields of `ShaderGenState` that the shader-generation graph
reads or writes.  Identity fields (`task_id`, `session_id`,
`created_at`) and fields unused by the graph path (`shader_name`,
`material_id`, texture slots, saved paths, screenshots) are omitted;
they are never read by the nodes under verification. -/
structure ShaderGenState where
  user_requirement : String := ""
  reference_image : Option String := none
  previous_code : Option String := none
  is_modification : Bool := false
  conversation_context : String := ""
  image_analysis : Option String := none
  requirement_analysis : Option String := none
  generated_code : String := ""
  validation_passed : Bool := false
  validation_errors : List String := []
  compile_result : CompileResult := {}
  retry_count : Nat := 0
  max_retries : Nat := 3
  error_history : List String := []
  current_stage : String := "init"
  is_complete : Bool := false
  error : Option String := none
  deriving Repr, DecidableEq

/-- Embeds `ShaderGenState.can_retry` (state.py lines 114-117):
`self.retry_count < self.max_retries`. -/
def ShaderGenState.can_retry (s : ShaderGenState) : Bool :=
  s.retry_count < s.max_retries

/-- Embeds `ShaderGenState.increment_retry` (state.py lines 124-129).  Defined
in the source but never invoked by any graph node, so `error_history`
is never populated along the workflow. -/
def ShaderGenState.increment_retry (s : ShaderGenState) : ShaderGenState :=
  let rc := s.retry_count + 1
  if s.compile_result.errors ≠ [] then
    { s with
        retry_count := rc
        error_history := s.error_history ++
          ["Attempt " ++ toString rc ++ ": " ++
            String.intercalate "; " s.compile_result.errors] }
  else
    { s with retry_count := rc }

/-! ## Graph nodes (graphs/shader_gen/nodes.py)

`analyze_image`, `analyze_requirement`, `generate_shader` and
`fix_validation_errors` call the LLM; the produced text is supplied as
the argument `out` (the Generator oracle).  `generate_shader` and
`fix_validation_errors` post-process the LLM reply with
`extract_shader_code`; that post-processing of an arbitrary oracle
string is absorbed into the oracle. -/

/-- Embeds `analyze_image` (nodes.py lines 29-91): records the vision-model
output, or clears it when no reference image is present. -/
def analyze_image (out : String) (s : ShaderGenState) : ShaderGenState :=
  if pyTruthy s.reference_image then
    { s with image_analysis := some out, current_stage := "image_analyzed" }
  else
    { s with image_analysis := none, current_stage := "no_image" }

/-- Embeds `analyze_requirement` (nodes.py lines 94-139): records the combined
requirement analysis. -/
def analyze_requirement (out : String) (s : ShaderGenState) : ShaderGenState :=
  let combined :=
    if pyTruthy s.image_analysis then
      "User Requirement Analysis:\n" ++ out ++ "\n\nImage Style Analysis:\n" ++
        s.image_analysis.getD ""
    else out
  { s with requirement_analysis := some combined, current_stage := "analyzed" }

/-- Embeds `generate_shader` (nodes.py lines 142-248): stores the generated
shader code. -/
def generate_shader (out : String) (s : ShaderGenState) : ShaderGenState :=
  { s with generated_code := out, current_stage := "generated" }

/-- The checklist of `validate_shader` (nodes.py lines 257-292): the
sequence of substring checks over the artifact, each appending zero or
one deficiency string.  The first source check (nodes.py line 262)
repeats the identical substring test for the Shader declaration twice,
with byte-identical operands, so it reduces to a single test. -/
def validation_deficiencies (code : String) : List String :=
  let errs : List String := []
  let errs := if !strContains code "Shader \"" && !strContains code "Shader \"" then
      errs ++ ["Missing Shader declaration"] else errs
  let errs := if !strContains code "SubShader" then
      errs ++ ["Missing SubShader block"] else errs
  let errs := if !strContains code "Pass" then
      errs ++ ["Missing Pass block"] else errs
  let errs := if !strContains code "#pragma vertex" then
      errs ++ ["Missing #pragma vertex directive"] else errs
  let errs := if !strContains code "#pragma fragment" then
      errs ++ ["Missing #pragma fragment directive"] else errs
  let errs := if !strContains code "com.unity.render-pipelines" then
      errs ++ ["Missing URP include (Packages/com.unity.render-pipelines.universal/...)"]
    else errs
  let errs := if !strContains code "HLSLPROGRAM" then
      errs ++ ["Missing HLSLPROGRAM block (using CGPROGRAM instead of HLSL?)"] else errs
  let errs := if !strContains code "ENDHLSL" then
      errs ++ ["Missing ENDHLSL"] else errs
  errs

/-- Embeds `validate_shader` (nodes.py lines 251-298).  `code =
state.generated_code or ""` is the identity on strings (the falsy
string is already `""`). -/
def validate_shader (s : ShaderGenState) : ShaderGenState :=
  let code := s.generated_code
  let errs := validation_deficiencies code
  let is_valid := errs.isEmpty
  { s with
      validation_passed := is_valid
      validation_errors := errs
      current_stage := if is_valid then "validated" else "validation_failed" }

/-- Result type of the conditional edge `check_should_compile`
(the Python `Literal["compile", "fix"]`). -/
inductive ValidateRoute
  | compile
  | fix
  deriving Repr, DecidableEq

/-- Embeds `check_should_compile` (nodes.py lines 301-307). -/
def check_should_compile (s : ShaderGenState) : ValidateRoute :=
  if s.validation_passed then .compile else .fix

/-- Embeds `fix_validation_errors` (nodes.py lines 310-346): stores the fixed
shader code produced by the LLM. -/
def fix_validation_errors (out : String) (s : ShaderGenState) : ShaderGenState :=
  { s with generated_code := out, current_stage := "fixed" }

/-- Embeds `handle_compile_result` (nodes.py lines 349-364).  The source guard
is `state.compile_result and state.compile_result.success`; a pydantic
model instance is always truthy, so the guard reduces to the `success`
flag. -/
def handle_compile_result (s : ShaderGenState) : ShaderGenState :=
  if s.compile_result.success then
    { s with current_stage := "compiled" }
  else
    { s with retry_count := s.retry_count + 1, current_stage := "compile_failed" }

/-- Result type of the conditional edge `check_should_retry`
(the Python `Literal["retry", "fail", "success"]`). -/
inductive CompileRoute
  | retry
  | fail
  | success
  deriving Repr, DecidableEq

/-- Embeds `check_should_retry` (nodes.py lines 367-377). -/
def check_should_retry (s : ShaderGenState) : CompileRoute :=
  if s.compile_result.success then .success
  else if s.can_retry then .retry
  else .fail

/-- Embeds `prepare_retry` (nodes.py lines 380-386). -/
def prepare_retry (s : ShaderGenState) : ShaderGenState :=
  { s with current_stage := "retrying" }

/-- Embeds `finalize_success` (nodes.py lines 389-396). -/
def finalize_success (s : ShaderGenState) : ShaderGenState :=
  { s with is_complete := true, current_stage := "complete" }

/-- Embeds `finalize_failure` (nodes.py lines 399-412): the terminal error
summary is built from the final `compile_result.errors` only. -/
def finalize_failure (s : ShaderGenState) : ShaderGenState :=
  let error_summary := "Shader generation failed after maximum retry attempts."
  let error_summary :=
    if s.compile_result.errors ≠ [] then
      error_summary ++ "\n\nFinal errors:\n" ++
        String.intercalate "\n" s.compile_result.errors
    else error_summary
  { s with is_complete := true, error := some error_summary, current_stage := "failed" }

/-! ## Workflow wiring (graphs/shader_gen/graph.py)

`create_shader_gen_graph` (graph.py lines 35-115) wires the nodes:
conditional entry `check_has_image`, `analyze_image -> analyze ->
generate -> validate`, the conditional edge `validate -> END/fix`
(`END` pauses for the external compile tool call: the runner issues
the request and resumes at `compile_check`, graph.py lines 190-216),
`fix -> validate`, the conditional edge `compile_check ->
retry/fail/success`, `retry -> generate`, and terminal `success`/`fail`
edges to `END`.  The node `compile_wait` below is the suspension point:
stepping out of it delivers the external compile reply and resumes at
`compile_check`. -/

/-- The stages of the workflow state machine. -/
inductive Node
  | analyze_image
  | analyze
  | generate
  | validate
  | fix
  | compile_wait
  | compile_check
  | retry
  | success
  | fail
  | terminal
  deriving Repr, DecidableEq

/-- The environment of one workflow execution: the Generator oracle
(the text produced by the k-th LLM call) and the external compile
replies (the reply to the k-th compile tool call). -/
structure Env where
  gen_output : Nat → String
  compile_reply : Nat → CompileResult

/-- One workflow configuration: current node, task state, and the
counts of LLM calls and compile tool calls made so far. -/
structure Config where
  node : Node
  state : ShaderGenState
  gen_calls : Nat
  compile_calls : Nat

/-- Embeds `check_has_image` (graph.py lines 28-32) chooses the entry node. -/
def initConfig (s : ShaderGenState) : Config :=
  { node := if pyTruthy s.reference_image then .analyze_image else .analyze
    state := s
    gen_calls := 0
    compile_calls := 0 }

/-- One transition of the workflow: executes the node the
configuration is at and moves along the graph edges of
`create_shader_gen_graph`. -/
def step (env : Env) (c : Config) : Config :=
  match c.node with
  | .analyze_image =>
      { c with
          node := .analyze
          state := analyze_image (env.gen_output c.gen_calls) c.state
          gen_calls := c.gen_calls + 1 }
  | .analyze =>
      { c with
          node := .generate
          state := analyze_requirement (env.gen_output c.gen_calls) c.state
          gen_calls := c.gen_calls + 1 }
  | .generate =>
      { c with
          node := .validate
          state := generate_shader (env.gen_output c.gen_calls) c.state
          gen_calls := c.gen_calls + 1 }
  | .validate =>
      let s := validate_shader c.state
      match check_should_compile s with
      | .compile => { c with node := .compile_wait, state := s }
      | .fix => { c with node := .fix, state := s }
  | .fix =>
      { c with
          node := .validate
          state := fix_validation_errors (env.gen_output c.gen_calls) c.state
          gen_calls := c.gen_calls + 1 }
  | .compile_wait =>
      { c with
          node := .compile_check
          state := { c.state with compile_result := env.compile_reply c.compile_calls }
          compile_calls := c.compile_calls + 1 }
  | .compile_check =>
      let s := handle_compile_result c.state
      match check_should_retry s with
      | .success => { c with node := .success, state := s }
      | .retry => { c with node := .retry, state := s }
      | .fail => { c with node := .fail, state := s }
  | .retry =>
      { c with node := .generate, state := prepare_retry c.state }
  | .success =>
      { c with node := .terminal, state := finalize_success c.state }
  | .fail =>
      { c with node := .terminal, state := finalize_failure c.state }
  | .terminal => c

/-- Iterates `step`: `run env c n` is the configuration after `n` workflow transitions
from `c`. -/
def run (env : Env) (c : Config) : Nat → Config
  | 0 => c
  | n + 1 => step env (run env c n)




/-! ## Concrete execution environments

Inputs used by the scenario theorems below. -/

/-- A minimal artifact containing every marker of the validation
checklist, so that `validate_shader` passes on it. -/
def validCode : String :=
  "Shader \"Custom/X\" SubShader Pass #pragma vertex vert #pragma fragment frag com.unity.render-pipelines HLSLPROGRAM ENDHLSL"

/-- Scenario B environment: the Generator always produces a valid
artifact and every external compile reply is the failure
`success:false, errors:["line 10: syntax"]`. -/
def envFail : Env :=
  { gen_output := fun _ => validCode
    compile_reply := fun _ => { success := false, errors := ["line 10: syntax"] } }

/-- A fresh task with default fields (no reference image,
`retry_count = 0`, `max_retries = 3`), at the workflow entry. -/
def cfg0 : Config := initConfig {}

/-- A fresh task whose retry ceiling is zero. -/
def cfgZero : Config := initConfig { max_retries := 0 }

/-- A configuration sitting at the `validate` node with an empty
(invalid) artifact. -/
def cfgValidateEmpty : Config :=
  { node := .validate, state := {}, gen_calls := 0, compile_calls := 0 }

/-- A fresh task carrying the valid artifact. -/
def sWit : ShaderGenState := { generated_code := validCode }

/-- Another task carrying that artifact, differing elsewhere. -/
def tWit : ShaderGenState := { generated_code := validCode, retry_count := 2 }

/-- An environment whose Generator always produces an artifact that
fails validation (the empty artifact), with all-default compile
replies. -/
def envBad : Env :=
  { gen_output := fun _ => ""
    compile_reply := fun _ => {} }

/-! ## Wire messages (server/messages.py)

Incoming traffic is a raw byte string that `json.loads` either rejects
or turns into a JSON value; the JSON value is modelled explicitly and
the raw input as its parse outcome. -/

/-- A JSON value (the result of a successful `json.loads`).  Numbers
are modelled as integers; no claim depends on fractional values. -/
inductive JValue
  | null
  | bool (b : Bool)
  | num (n : Int)
  | str (s : String)
  | arr (elems : List JValue)
  | obj (fields : List (String × JValue))
  deriving Repr

/-- A raw WebSocket text frame: either `json.loads` rejects it
(`JSONDecodeError` with the given text) or it decodes to a JSON
value. -/
inductive Raw
  | malformed (err : String)
  | parsed (j : JValue)
  deriving Repr

/-- Key lookup in a JSON object (first binding; JSON objects produced
by `json.loads` have unique keys). -/
def jLookup (fields : List (String × JValue)) (k : String) : Option JValue :=
  match fields with
  | [] => none
  | (k', v) :: rest => if k' = k then some v else jLookup rest k

/-- Whether a JSON array element equals the Python string `"type"`
(used by list membership `"type" in data`). -/
def jIsTypeStr (v : JValue) : Bool :=
  match v with
  | .str s => s == "type"
  | _ => false

/-- Embeds `MessageType` (messages.py lines 16-25): the client-to-server
message type tags.  Note the `PING` member has the lowercase tag
`"ping"`. -/
inductive MessageType
  | SESSION_INIT
  | USER_MESSAGE
  | TOOL_RESPONSE
  | CONFIRM_RESPONSE
  | CANCEL_TASK
  | SESSION_END
  | PING
  deriving Repr, DecidableEq

/-- The string value of each `MessageType` member. -/
def MessageType.value : MessageType → String
  | .SESSION_INIT => "SESSION_INIT"
  | .USER_MESSAGE => "USER_MESSAGE"
  | .TOOL_RESPONSE => "TOOL_RESPONSE"
  | .CONFIRM_RESPONSE => "CONFIRM_RESPONSE"
  | .CANCEL_TASK => "CANCEL_TASK"
  | .SESSION_END => "SESSION_END"
  | .PING => "ping"

/-- Embeds `MessageType(tag)`: the str-enum constructor; `none` is the
`ValueError` of an unknown tag. -/
def MessageType.fromTag (t : String) : Option MessageType :=
  if t = "SESSION_INIT" then some .SESSION_INIT
  else if t = "USER_MESSAGE" then some .USER_MESSAGE
  else if t = "TOOL_RESPONSE" then some .TOOL_RESPONSE
  else if t = "CONFIRM_RESPONSE" then some .CONFIRM_RESPONSE
  else if t = "CANCEL_TASK" then some .CANCEL_TASK
  else if t = "SESSION_END" then some .SESSION_END
  else if t = "ping" then some .PING
  else none

/-- Modelled from the spec: message_handler.py line 152 compares
against `MessageType.USER_CONFIRM`, a member that `MessageType` in
messages.py does not define.  The spec names the confirmation reply
type `CONFIRM_RESPONSE` with payload `confirm_id`/`approved`, so the
missing member is modelled as the confirm-response type. -/
def MessageType.USER_CONFIRM : MessageType := .CONFIRM_RESPONSE

/-- Embeds `ServerMessageType` (messages.py lines 28-41): server-to-client
message type tags, given directly by their string values.  Only `ERROR`
and the lowercase `pong` are consumed by the handler under
verification. -/
def ServerMessageType.ERROR : String := "ERROR"

/-- The `PONG` member of `ServerMessageType` has the lowercase value
`"pong"`. -/
def ServerMessageType.PONG : String := "pong"

/-- Embeds `BaseMessage` (messages.py lines 44-56): the envelope shared by all
messages.  The `id` and `timestamp` fields are default-generated and
never read by the handler, so the embedding keeps `type` and
`payload`. -/
structure BaseMessage where
  type : String
  payload : List (String × JValue) := []
  deriving Repr

/-- Embeds `BaseMessage.model_validate(data)`: succeeds iff `data` is a JSON
object whose `type` member is a string and whose `payload` member, when
present, is an object (pydantic supplies the empty default otherwise);
`none` is the pydantic `ValidationError`. -/
def baseMessageValidate (j : JValue) : Option BaseMessage :=
  match j with
  | .obj fields =>
      match jLookup fields "type" with
      | some (.str t) =>
          match jLookup fields "payload" with
          | some (.obj p) => some { type := t, payload := p }
          | none => some { type := t }
          | some _ => none
      | _ => none
  | _ => none

/-- Embeds `ToolResponsePayload` (messages.py lines 94-98): `tool_call_id`
required, `result` an object defaulting to empty. -/
structure ToolResponsePayload where
  tool_call_id : String
  result : List (String × JValue) := []
  deriving Repr

/-- Embeds `ToolResponsePayload.model_validate` on a message payload. -/
def toolResponsePayloadValidate (payload : List (String × JValue)) :
    Option ToolResponsePayload :=
  match jLookup payload "tool_call_id" with
  | some (.str s) =>
      match jLookup payload "result" with
      | some (.obj f) => some { tool_call_id := s, result := f }
      | none => some { tool_call_id := s }
      | some _ => none
  | _ => none

/-- Modelled from the spec: `UserConfirmPayload` is imported by
message_handler.py from server.messages but is not defined there.  The
spec gives the confirmation reply payload as `confirm_id` plus an
approval flag; the handler reads `confirm_id`, `confirmed` and
`message`, so the payload is modelled with those fields (`confirmed`
is the approval flag, `message` an optional note). -/
structure UserConfirmPayload where
  confirm_id : String
  confirmed : Bool
  message : Option String := none
  deriving Repr

/-- Embeds `UserConfirmPayload.model_validate` on a message payload. -/
def userConfirmPayloadValidate (payload : List (String × JValue)) :
    Option UserConfirmPayload :=
  match jLookup payload "confirm_id" with
  | some (.str cid) =>
      match jLookup payload "confirmed" with
      | some (.bool b) =>
          match jLookup payload "message" with
          | some (.str m) => some { confirm_id := cid, confirmed := b, message := some m }
          | none => some { confirm_id := cid, confirmed := b }
          | some _ => none
      | _ => none
  | _ => none

/-- Modelled from the spec: `create_error_message` is imported by
message_handler.py and websocket_server.py from server.messages but is
not defined there.  The spec gives the server error envelope
`ERROR(code, message, ...)`; the call sites pass `code`, `message` and
an optional `recoverable` flag. -/
def create_error_message (code message : String) (recoverable : Bool := true) :
    BaseMessage :=
  { type := ServerMessageType.ERROR
    payload := [("code", .str code), ("message", .str message),
                ("recoverable", .bool recoverable)] }

/-! ## Message handler (server/message_handler.py)

The handler owns three Python dictionaries: registered per-type
handlers, pending confirmation callbacks and pending tool-call
callbacks.  Callables are opaque to the model: registered handlers are
recorded as the set of registered types (their execution result is an
oracle), and pending callbacks as integer tokens keyed by correlation
id (their invocation is awaited with any exception caught and logged,
message_handler.py lines 190-193 and 212-216, so it has no modelled
effect on the handler state). -/

/-- Python `dict` assignment `m[k] = v`: replaces the binding in place
or appends a new one. -/
def dictInsert (m : List (String × Nat)) (k : String) (v : Nat) :
    List (String × Nat) :=
  match m with
  | [] => [(k, v)]
  | (k', v') :: rest =>
      if k' = k then (k, v) :: rest else (k', v') :: dictInsert rest k v

/-- Python `m.get(k)` / `m[k]` lookup. -/
def dictGet (m : List (String × Nat)) (k : String) : Option Nat :=
  match m with
  | [] => none
  | (k', v) :: rest => if k' = k then some v else dictGet rest k

/-- Python `m.pop(k, None)`: the removed value (if any) and the
remaining dictionary. -/
def dictPop (m : List (String × Nat)) (k : String) :
    Option Nat × List (String × Nat) :=
  match m with
  | [] => (none, [])
  | (k', v) :: rest =>
      if k' = k then (some v, rest)
      else
        let r := dictPop rest k
        (r.1, (k', v) :: r.2)

/-- The mutable state of `MessageHandler` (message_handler.py lines
45-48): `_handlers`, `_pending_confirms`, `_pending_tool_calls`. -/
structure HandlerState where
  handlers : List MessageType := []
  pending_confirms : List (String × Nat) := []
  pending_tool_calls : List (String × Nat) := []
  deriving Repr, DecidableEq

/-- Embeds `register_confirm_callback` (message_handler.py lines 222-228):
plain dictionary assignment. -/
def register_confirm_callback (st : HandlerState) (confirm_id : String)
    (callback : Nat) : HandlerState :=
  { st with pending_confirms := dictInsert st.pending_confirms confirm_id callback }

/-- Embeds `register_tool_callback` (message_handler.py lines 230-236):
plain dictionary assignment. -/
def register_tool_callback (st : HandlerState) (request_id : String)
    (callback : Nat) : HandlerState :=
  { st with pending_tool_calls := dictInsert st.pending_tool_calls request_id callback }

/-- The outcome of awaiting a registered per-type handler coroutine:
either its return value or a raised exception (caught by
`handle_message` lines 168-176 and converted to `HANDLER_ERROR`). -/
inductive HandlerResult
  | ok (resp : Option BaseMessage)
  | raises (e : String)

/-- External behaviour the handler depends on: what each registered
per-type handler returns when awaited. -/
structure HandlerEnv where
  handler_result : MessageType → HandlerResult

/-- Result of `handle_message`: a value returned to the caller (with
the handler state after the call), or an exception escaping the
method. -/
inductive Outcome
  | returned (resp : Option BaseMessage) (st : HandlerState)
  | raised (exc : String) (st : HandlerState)
  deriving Repr

/-- Whether the outcome is an escaped exception. -/
def Outcome.isRaised : Outcome → Bool
  | .returned _ _ => false
  | .raised _ _ => true

/-- The `code` field of a returned `ERROR` response, if any. -/
def Outcome.errorCode : Outcome → Option String
  | .returned (some m) _ =>
      match jLookup m.payload "code" with
      | some (.str c) => some c
      | _ => none
  | _ => none

/-- The handler state after the call. -/
def Outcome.finalState : Outcome → HandlerState
  | .returned _ st => st
  | .raised _ st => st

/-- Outcome of `parse_message` (message_handler.py lines 59-84):
a parsed message, a `MessageParseError` (caught by `handle_message`),
or a `TypeError` (not caught anywhere in the handler). -/
inductive ParseOutcome
  | ok (m : BaseMessage)
  | parseErr (msg : String)
  | typeErr (msg : String)
  deriving Repr

/-- Embeds `parse_message` (message_handler.py lines 59-84).  After a
successful `json.loads`, the source evaluates `"type" not in data`:
dictionary membership is key lookup, list membership compares elements,
string membership is a substring test, and on a number, boolean or
`None` the Python `in` operator raises `TypeError` - which this method
does not catch.  The source parse-error texts quote the word type in
single quotes and append pydantic error details; the quotes and details
are not modelled. -/
def parse_message (raw : Raw) : ParseOutcome :=
  match raw with
  | .malformed e => .parseErr ("Invalid JSON: " ++ e)
  | .parsed j =>
      match j with
      | .obj fields =>
          if (jLookup fields "type").isNone then .parseErr "Missing type field"
          else
            match baseMessageValidate j with
            | some m => .ok m
            | none => .parseErr "Invalid message structure"
      | .arr elems =>
          if !(elems.any jIsTypeStr) then .parseErr "Missing type field"
          else
            match baseMessageValidate j with
            | some m => .ok m
            | none => .parseErr "Invalid message structure"
      | .str s =>
          if !(strContains s "type") then .parseErr "Missing type field"
          else
            match baseMessageValidate j with
            | some m => .ok m
            | none => .parseErr "Invalid message structure"
      | .num _ => .typeErr "TypeError: argument of type int is not iterable"
      | .bool _ => .typeErr "TypeError: argument of type bool is not iterable"
      | .null => .typeErr "TypeError: argument of type NoneType is not iterable"

/-- Embeds `MessageHandler._handle_confirm` (message_handler.py lines
178-197): invalid payload returns `INVALID_CONFIRM`; otherwise the
pending callback for `confirm_id` is popped (no-op when absent, only
logged) and the method returns `None`. -/
def handle_confirm (st : HandlerState) (message : BaseMessage) : Outcome :=
  match userConfirmPayloadValidate message.payload with
  | none =>
      .returned (some (create_error_message "INVALID_CONFIRM"
        "Invalid payload for CONFIRM_RESPONSE")) st
  | some payload =>
      let popped := dictPop st.pending_confirms payload.confirm_id
      .returned none { st with pending_confirms := popped.2 }

/-- Embeds `MessageHandler._handle_tool_response` (message_handler.py lines
199-220): invalid payload returns `INVALID_TOOL_RESPONSE`; otherwise
line 211 reads `payload.request_id`, a field that `ToolResponsePayload`
(messages.py line 94, which defines `tool_call_id`) does not have, so
the attribute access raises `AttributeError` before the pending map is
touched. -/
def handle_tool_response (st : HandlerState) (message : BaseMessage) : Outcome :=
  match toolResponsePayloadValidate message.payload with
  | none =>
      .returned (some (create_error_message "INVALID_TOOL_RESPONSE"
        "Invalid payload for TOOL_RESPONSE")) st
  | some _payload =>
      .raised "AttributeError: ToolResponsePayload object has no attribute request_id" st

/-- Embeds `MessageHandler.handle_message` (message_handler.py lines 112-176):
parse, convert the type tag, answer `ping`, dispatch confirmations and
tool responses, then route to the registered handler.  Only
`MessageParseError` (in parsing) and exceptions of registered handlers
are caught. -/
def handle_message (env : HandlerEnv) (st : HandlerState) (raw : Raw) : Outcome :=
  match parse_message raw with
  | .typeErr e => .raised e st
  | .parseErr e =>
      .returned (some (create_error_message "PARSE_ERROR" e true)) st
  | .ok message =>
      match MessageType.fromTag message.type with
      | none =>
          .returned (some (create_error_message "UNKNOWN_MESSAGE_TYPE"
            ("Unknown message type: " ++ message.type) true)) st
      | some msg_type =>
          if msg_type = .PING then
            .returned (some { type := ServerMessageType.PONG }) st
          else if msg_type = MessageType.USER_CONFIRM then
            handle_confirm st message
          else if msg_type = .TOOL_RESPONSE then
            handle_tool_response st message
          else if st.handlers.contains msg_type then
            match env.handler_result msg_type with
            | .ok r => .returned r st
            | .raises e =>
                .returned (some (create_error_message "HANDLER_ERROR"
                  ("Error processing message: " ++ e) true)) st
          else
            .returned (some (create_error_message "NO_HANDLER"
              "No handler for message type" true)) st

/-- An environment whose registered handlers all return nothing. -/
def envH0 : HandlerEnv :=
  { handler_result := fun _ => .ok none }

/-- The key list of a pending-callback dictionary. -/
def dictKeys (m : List (String × Nat)) : List String :=
  m.map Prod.fst

/-- A well-formed `TOOL_RESPONSE` wire message whose `tool_call_id`
matches no outstanding callback. -/
def toolRespRaw : Raw :=
  .parsed (.obj [("type", .str "TOOL_RESPONSE"),
    ("payload", .obj [("tool_call_id", .str "call-unknown"),
      ("result", .obj [])])])

/-- A well-formed `CONFIRM_RESPONSE` wire message whose `confirm_id`
matches no outstanding callback. -/
def confirmRespRaw : Raw :=
  .parsed (.obj [("type", .str "CONFIRM_RESPONSE"),
    ("payload", .obj [("confirm_id", .str "confirm-unknown"),
      ("confirmed", .bool true)])])

/-! ## Supporting lemmas -/

theorem analyze_image_retry_count (out : String) (s : ShaderGenState) :
    (analyze_image out s).retry_count = s.retry_count := by
  unfold analyze_image; split <;> rfl

theorem analyze_image_max_retries (out : String) (s : ShaderGenState) :
    (analyze_image out s).max_retries = s.max_retries := by
  unfold analyze_image; split <;> rfl

theorem analyze_image_is_complete (out : String) (s : ShaderGenState) :
    (analyze_image out s).is_complete = s.is_complete := by
  unfold analyze_image; split <;> rfl

theorem analyze_image_error (out : String) (s : ShaderGenState) :
    (analyze_image out s).error = s.error := by
  unfold analyze_image; split <;> rfl

theorem handle_compile_result_max_retries (s : ShaderGenState) :
    (handle_compile_result s).max_retries = s.max_retries := by
  unfold handle_compile_result; split <;> rfl

theorem handle_compile_result_compile_result (s : ShaderGenState) :
    (handle_compile_result s).compile_result = s.compile_result := by
  unfold handle_compile_result; split <;> rfl

theorem handle_compile_result_retry_count (s : ShaderGenState) :
    (handle_compile_result s).retry_count =
      if s.compile_result.success then s.retry_count else s.retry_count + 1 := by
  unfold handle_compile_result; split <;> simp_all

/-- Running `m + n` steps splits into `m` steps then `n` steps. -/
theorem run_add (env : Env) (c : Config) (m n : Nat) :
    run env c (m + n) = run env (run env c m) n := by
  induction n with
  | zero => rfl
  | succ k ih => rw [show m + (k + 1) = (m + k) + 1 from rfl, run, ih, run]

/-- A configuration at the terminal node is stuck: `SUCCESS` and `FAIL`
never re-enter the machine. -/
theorem terminal_stuck (env : Env) (c : Config) (h : c.node = .terminal)
    (n : Nat) : run env c n = c := by
  induction n with
  | zero => rfl
  | succ k ih => rw [run, ih, step, h]

/-- Whether a node is still inside the generate/validate/compile
machinery (before any terminal routing decision). -/
def activeNode : Node → Bool
  | .success => false
  | .fail => false
  | .terminal => false
  | _ => true

/-- The inductive invariant behind the retry ceiling: while active the
counter is strictly below the ceiling, it never exceeds the ceiling,
and at the `fail` node it equals the ceiling. -/
def RetryInv (c : Config) : Prop :=
  (activeNode c.node = true → c.state.retry_count < c.state.max_retries) ∧
  c.state.retry_count ≤ c.state.max_retries ∧
  (c.node = .fail → c.state.retry_count = c.state.max_retries)

theorem retryInv_step (env : Env) (c : Config) (h : RetryInv c) :
    RetryInv (step env c) := by
  obtain ⟨h1, h2, h3⟩ := h
  cases hn : c.node with
  | analyze_image =>
      have hlt := h1 (by rw [hn]; rfl)
      refine ⟨fun _ => ?_, ?_, by simp [step, hn]⟩ <;>
        simp [step, hn, analyze_image_retry_count, analyze_image_max_retries] <;>
        omega
  | analyze =>
      have hlt := h1 (by rw [hn]; rfl)
      refine ⟨fun _ => ?_, ?_, by simp [step, hn, analyze_requirement]⟩ <;>
        simp [step, hn, analyze_requirement] <;> omega
  | generate =>
      have hlt := h1 (by rw [hn]; rfl)
      refine ⟨fun _ => ?_, ?_, by simp [step, hn, generate_shader]⟩ <;>
        simp [step, hn, generate_shader] <;> omega
  | validate =>
      have hlt := h1 (by rw [hn]; rfl)
      have hrc : (validate_shader c.state).retry_count = c.state.retry_count := rfl
      have hmr : (validate_shader c.state).max_retries = c.state.max_retries := rfl
      cases hv : check_should_compile (validate_shader c.state) <;>
        refine ⟨fun _ => ?_, ?_, fun hfail => ?_⟩ <;>
        simp only [step, hn, hv] at * <;>
        simp_all [activeNode] <;> omega
  | fix =>
      have hlt := h1 (by rw [hn]; rfl)
      refine ⟨fun _ => ?_, ?_, by simp [step, hn, fix_validation_errors]⟩ <;>
        simp [step, hn, fix_validation_errors] <;> omega
  | compile_wait =>
      have hlt := h1 (by rw [hn]; rfl)
      refine ⟨fun _ => ?_, ?_, by simp [step, hn]⟩ <;> simp [step, hn] <;> omega
  | compile_check =>
      have hlt := h1 (by rw [hn]; rfl)
      cases hs : c.state.compile_result.success with
      | true =>
          have hroute : check_should_retry (handle_compile_result c.state) =
              .success := by
            unfold check_should_retry
            rw [handle_compile_result_compile_result, hs]
            rfl
          refine ⟨fun hact => ?_, ?_, fun hfail => ?_⟩ <;>
            simp [step, hn, hroute, handle_compile_result_retry_count,
              handle_compile_result_max_retries, hs] at * <;> omega
      | false =>
          have hrc : (handle_compile_result c.state).retry_count =
              c.state.retry_count + 1 := by
            rw [handle_compile_result_retry_count, hs]; rfl
          cases hcr : (handle_compile_result c.state).can_retry with
          | true =>
              have hroute : check_should_retry (handle_compile_result c.state) =
                  .retry := by
                unfold check_should_retry
                rw [handle_compile_result_compile_result, hs, hcr]
                rfl
              have hlt' : c.state.retry_count + 1 < c.state.max_retries := by
                have := hcr
                unfold ShaderGenState.can_retry at this
                rw [hrc, handle_compile_result_max_retries] at this
                simpa using this
              have hmr2 : (handle_compile_result c.state).max_retries =
                  c.state.max_retries := handle_compile_result_max_retries c.state
              refine ⟨fun hact => ?_, ?_, fun hfail => ?_⟩
              · simp only [step, hn, hroute]
                omega
              · simp only [step, hn, hroute]
                omega
              · simp [step, hn, hroute] at hfail
          | false =>
              have hroute : check_should_retry (handle_compile_result c.state) =
                  .fail := by
                unfold check_should_retry
                rw [handle_compile_result_compile_result, hs, hcr]
                rfl
              have hge : ¬ c.state.retry_count + 1 < c.state.max_retries := by
                have := hcr
                unfold ShaderGenState.can_retry at this
                rw [hrc, handle_compile_result_max_retries] at this
                simpa using this
              have hmr2 : (handle_compile_result c.state).max_retries =
                  c.state.max_retries := handle_compile_result_max_retries c.state
              refine ⟨fun hact => ?_, ?_, fun hfail => ?_⟩
              · simp [step, hn, hroute, activeNode] at hact
              · simp only [step, hn, hroute]
                omega
              · simp only [step, hn, hroute]
                omega
  | retry =>
      have hlt := h1 (by rw [hn]; rfl)
      refine ⟨fun _ => ?_, ?_, by simp [step, hn, prepare_retry]⟩ <;>
        simp [step, hn, prepare_retry] <;> omega
  | success =>
      refine ⟨fun hact => ?_, ?_, fun hfail => ?_⟩ <;>
        simp [step, hn, finalize_success, activeNode] at * <;> omega
  | fail =>
      have heq := h3 hn
      refine ⟨fun hact => ?_, ?_, fun hfail => ?_⟩ <;>
        simp [step, hn, finalize_failure, activeNode] at * <;> omega
  | terminal =>
      refine ⟨fun hact => ?_, ?_, fun hfail => ?_⟩ <;>
        simp [step, hn, activeNode] at * <;> omega

theorem retryInv_run (env : Env) (c : Config) (h : RetryInv c) (n : Nat) :
    RetryInv (run env c n) := by
  induction n with
  | zero => exact h
  | succ k ih => exact retryInv_step env _ ih

/-- C1 (amended): for every environment and every task started with a
zero retry counter and a retry ceiling of at least one, the counter
never exceeds the ceiling at any point of the execution, and whenever
the execution is at the `fail` node (reached only through
`handle_compile_result` followed by `check_should_retry` returning the
fail route) the counter equals the ceiling.  The ceiling-zero case is
excluded: there the first failure pushes the counter past the ceiling
(see the counterexample). -/
theorem retry_counter_never_exceeds_ceiling (env : Env) (s0 : ShaderGenState)
    (h0 : s0.retry_count = 0) (h1 : 1 ≤ s0.max_retries) (n : Nat) :
    (run env (initConfig s0) n).state.retry_count ≤
      (run env (initConfig s0) n).state.max_retries ∧
    ((run env (initConfig s0) n).node = .fail →
      (run env (initConfig s0) n).state.retry_count =
        (run env (initConfig s0) n).state.max_retries) := by
  have hinv : RetryInv (initConfig s0) := by
    refine ⟨fun _ => ?_, ?_, fun hfail => ?_⟩
    · show s0.retry_count < s0.max_retries
      omega
    · show s0.retry_count ≤ s0.max_retries
      omega
    · exfalso
      have : (initConfig s0).node =
          (if pyTruthy s0.reference_image then Node.analyze_image else Node.analyze) :=
        rfl
      rw [this] at hfail
      split at hfail <;> cases hfail
  have h := retryInv_run env (initConfig s0) hinv n
  exact ⟨h.2.1, h.2.2⟩

/-- Witness for C1: the amended statement instantiated on the
scenario-B environment after five transitions. -/
theorem retry_counter_never_exceeds_ceiling_witness :
    (({} : ShaderGenState).retry_count = 0 ∧ 1 ≤ ({} : ShaderGenState).max_retries) ∧
    ((run envFail (initConfig {}) 5).state.retry_count ≤
        (run envFail (initConfig {}) 5).state.max_retries ∧
      ((run envFail (initConfig {}) 5).node = .fail →
        (run envFail (initConfig {}) 5).state.retry_count =
          (run envFail (initConfig {}) 5).state.max_retries)) :=
  ⟨⟨rfl, by decide⟩,
   retry_counter_never_exceeds_ceiling envFail {} rfl (by decide) 5⟩

/-- C1 counterexample: with a retry ceiling of zero, the first
external compile failure already drives the counter to `1 > 0`, and
the task reaches the `fail` node with counter `1`, not equal to the
ceiling `0`: `handle_compile_result` increments before
`check_should_retry` compares. -/
theorem retry_counter_exceeds_zero_ceiling :
    (run envFail cfgZero 5).node = .fail ∧
    (run envFail cfgZero 5).state.max_retries = 0 ∧
    (run envFail cfgZero 5).state.retry_count = 1 := by
  decide

/-- C2 counterexample: with ceiling 3 and every reply failing, the
task is already terminal after the third external failure - only three
compile calls are ever issued, not four - and the error-history log in
which the claim expects three recorded entries is empty. -/
theorem scenario_b_terminal_after_third_failure :
    (run envFail cfg0 16).node = .terminal ∧
    (run envFail cfg0 16).state.is_complete = true ∧
    (run envFail cfg0 16).compile_calls = 3 ∧
    (run envFail cfg0 16).state.error_history = [] := by
  decide

/-- C2 (amended): with `max_retries = 3` and identical failing replies
`success:false, errors:["line 10: syntax"]`, the task loops back to
`GENERATE` with retry counter 1 after the first failure, loops twice
more, and reaches terminal `FAIL` on the third failure (not the
fourth) with retry counter 3; the terminal error message is built from
the error list of the final reply only - `error_history` stays empty
because `increment_retry` is never called - and the machine then stays
terminal forever, so no fourth compile attempt exists. -/
theorem scenario_b_retry_exhaustion :
    ((run envFail cfg0 6).node = .generate ∧
      (run envFail cfg0 6).state.retry_count = 1) ∧
    ((run envFail cfg0 15).node = .fail ∧
      (run envFail cfg0 15).state.retry_count = 3) ∧
    (run envFail cfg0 16).state.is_complete = true ∧
    (run envFail cfg0 16).state.retry_count = 3 ∧
    (run envFail cfg0 16).compile_calls = 3 ∧
    (run envFail cfg0 16).state.error =
      some ("Shader generation failed after maximum retry attempts." ++
        "\n\nFinal errors:\nline 10: syntax") ∧
    (run envFail cfg0 16).state.error_history = [] ∧
    ∀ n, run envFail cfg0 (16 + n) = run envFail cfg0 16 := by
  refine ⟨by decide, by decide, by decide, by decide, by decide, by decide,
    by decide, fun n => ?_⟩
  rw [run_add]
  exact terminal_stuck envFail _ (by decide) n

/-! Machinery for C3: the validate/fix loop. -/

/-- Nodes of the analysis/generation/validation/fix phase: no compile
request has been issued and no terminal routing has happened. -/
def inFixPhase : Node → Bool
  | .analyze_image => true
  | .analyze => true
  | .generate => true
  | .validate => true
  | .fix => true
  | _ => false

/-- Invariant of an execution whose Generator only produces artifacts
failing validation: the machine stays in the fix phase, completion flag
and terminal error frozen. -/
def FixInv (env : Env) (b : Bool) (e : Option String) (c : Config) : Prop :=
  inFixPhase c.node = true ∧
  (c.node = .validate → validation_deficiencies c.state.generated_code ≠ []) ∧
  c.state.is_complete = b ∧
  c.state.error = e

theorem fixInv_step (env : Env) (b : Bool) (e : Option String)
    (hgen : ∀ k, validation_deficiencies (env.gen_output k) ≠ [])
    (c : Config) (h : FixInv env b e c) : FixInv env b e (step env c) := by
  obtain ⟨h1, h2, h3, h4⟩ := h
  cases hn : c.node with
  | analyze_image =>
      refine ⟨by simp [step, hn, inFixPhase], by simp [step, hn], ?_, ?_⟩ <;>
        simp [step, hn, analyze_image_is_complete, analyze_image_error] <;>
        simp_all
  | analyze =>
      refine ⟨by simp [step, hn, inFixPhase], by simp [step, hn], ?_, ?_⟩ <;>
        simp [step, hn, analyze_requirement] <;> simp_all
  | generate =>
      refine ⟨by simp [step, hn, inFixPhase], fun _ => ?_, ?_, ?_⟩ <;>
        simp [step, hn, generate_shader] <;> simp_all
  | validate =>
      have hdef := h2 hn
      have hv : check_should_compile (validate_shader c.state) = .fix := by
        unfold check_should_compile
        have hp : (validate_shader c.state).validation_passed = false := by
          show (validation_deficiencies c.state.generated_code).isEmpty = false
          simpa [List.isEmpty_iff] using hdef
        rw [hp]
        rfl
      refine ⟨?_, ?_, ?_, ?_⟩ <;> simp only [step, hn, hv] <;>
        simp_all [inFixPhase, validate_shader]
  | fix =>
      refine ⟨by simp [step, hn, inFixPhase], fun _ => ?_, ?_, ?_⟩ <;>
        simp [step, hn, fix_validation_errors] <;> simp_all
  | compile_wait => simp [hn, inFixPhase] at h1
  | compile_check => simp [hn, inFixPhase] at h1
  | retry => simp [hn, inFixPhase] at h1
  | success => simp [hn, inFixPhase] at h1
  | fail => simp [hn, inFixPhase] at h1
  | terminal => simp [hn, inFixPhase] at h1

theorem fixInv_run (env : Env) (b : Bool) (e : Option String)
    (hgen : ∀ k, validation_deficiencies (env.gen_output k) ≠ [])
    (c : Config) (h : FixInv env b e c) (n : Nat) : FixInv env b e (run env c n) := by
  induction n with
  | zero => exact h
  | succ k ih => exact fixInv_step env b e hgen _ ih

/-- C3 (amended): the validate/fix inner loop is not bounded by any
fix-iteration ceiling.  If every artifact the Generator produces fails
validation, the workflow never leaves the analysis/generate/validate/
fix phase: it never terminates, never reports any error, and never
even issues the external compile request - there is no hard maximum
fix-iteration count and no fatal error in the code. -/
theorem fix_loop_unbounded (env : Env)
    (hgen : ∀ k, validation_deficiencies (env.gen_output k) ≠ [])
    (s0 : ShaderGenState) (n : Nat) :
    inFixPhase (run env (initConfig s0) n).node = true ∧
    (run env (initConfig s0) n).state.is_complete = s0.is_complete ∧
    (run env (initConfig s0) n).state.error = s0.error := by
  have hinit : FixInv env s0.is_complete s0.error (initConfig s0) := by
    refine ⟨?_, fun hval => ?_, rfl, rfl⟩
    · show inFixPhase (if pyTruthy s0.reference_image then
          Node.analyze_image else Node.analyze) = true
      split <;> rfl
    · exfalso
      have : (initConfig s0).node =
          (if pyTruthy s0.reference_image then Node.analyze_image else Node.analyze) :=
        rfl
      rw [this] at hval
      split at hval <;> cases hval
  have h := fixInv_run env s0.is_complete s0.error hgen (initConfig s0) hinit n
  exact ⟨h.1, h.2.2.1, h.2.2.2⟩

/-- Witness for C3: the amended statement instantiated on the
always-invalid Generator after nine transitions. -/
theorem fix_loop_unbounded_witness :
    (∀ k, validation_deficiencies (envBad.gen_output k) ≠ []) ∧
    (inFixPhase (run envBad (initConfig {}) 9).node = true ∧
      (run envBad (initConfig {}) 9).state.is_complete =
        ({} : ShaderGenState).is_complete ∧
      (run envBad (initConfig {}) 9).state.error = ({} : ShaderGenState).error) :=
  ⟨fun _ => by show validation_deficiencies "" ≠ []; decide,
   fix_loop_unbounded envBad (fun _ => by show validation_deficiencies "" ≠ []; decide) {} 9⟩

/-- C3 counterexample: after 100 transitions (49 fix iterations) with
an artifact whose validation verdict stays fail, the workflow is still
looping between `validate` and `fix`: it has not terminated and has
reported no fatal error, contradicting the claimed hard maximum
fix-iteration count (recommended 3). -/
theorem fix_loop_still_running_after_100_steps :
    (run envBad cfg0 100).node = .validate ∧
    (run envBad cfg0 100).state.is_complete = false ∧
    (run envBad cfg0 100).state.error = none := by
  decide

theorem check_should_compile_eq_compile (s : ShaderGenState) :
    check_should_compile s = .compile ↔ s.validation_passed = true := by
  unfold check_should_compile
  cases s.validation_passed <;> simp

/-- C7: the external compile request (the suspension at `compile_wait`)
is only ever entered from the `validate` node, and only carrying a
state whose validation verdict is pass; when the verdict of `VALIDATE`
is fail, the only transition out of it is to `FIX`. -/
theorem suspend_only_after_validation_pass (env : Env) (c : Config) :
    ((step env c).node = .compile_wait →
      c.node = .validate ∧ (step env c).state.validation_passed = true) ∧
    (c.node = .validate →
      (validate_shader c.state).validation_passed = false →
      (step env c).node = .fix) := by
  constructor
  · intro hw
    cases hn : c.node with
    | validate =>
        refine ⟨rfl, ?_⟩
        cases hv : check_should_compile (validate_shader c.state) with
        | compile =>
            have hst : (step env c).state = validate_shader c.state := by
              simp only [step, hn, hv]
            rw [hst]
            exact (check_should_compile_eq_compile _).mp hv
        | fix => simp [step, hn, hv] at hw
    | compile_check =>
        cases hv : check_should_retry (handle_compile_result c.state) <;>
          simp [step, hn, hv] at hw
    | analyze_image => simp [step, hn] at hw
    | analyze => simp [step, hn] at hw
    | generate => simp [step, hn] at hw
    | fix => simp [step, hn] at hw
    | compile_wait => simp [step, hn] at hw
    | retry => simp [step, hn] at hw
    | success => simp [step, hn] at hw
    | fail => simp [step, hn] at hw
    | terminal => simp [step, hn] at hw
  · intro hval hfailv
    have hv : check_should_compile (validate_shader c.state) = .fix := by
      unfold check_should_compile
      rw [hfailv]
      rfl
    simp [step, hval, hv]

/-- Witness for C7: on a validate-node configuration holding an
invalid artifact, the step goes to `fix`. -/
theorem suspend_only_after_validation_pass_witness :
    (cfgValidateEmpty.node = .validate ∧
      (validate_shader cfgValidateEmpty.state).validation_passed = false) ∧
    (step envBad cfgValidateEmpty).node = .fix :=
  ⟨⟨rfl, by decide⟩,
   (suspend_only_after_validation_pass envBad cfgValidateEmpty).2
     rfl (by decide)⟩

/-- The Validation Gate checklist as the spec words it: a fixed list of
independent predicates over the artifact, each producing zero or one
deficiency string - the top-level `Shader` declaration, the required
structural blocks (`SubShader`, `Pass`), the required pragma
directives (`#pragma vertex`, `#pragma fragment`), the required
platform-include marker (the URP package path), and the open/close
block marker pair (`HLSLPROGRAM` / `ENDHLSL`, each checked by
presence). -/
def spec_checklist : List (String → Option String) :=
  [ fun code => if !strContains code "Shader \"" then
      some "Missing Shader declaration" else none,
    fun code => if !strContains code "SubShader" then
      some "Missing SubShader block" else none,
    fun code => if !strContains code "Pass" then
      some "Missing Pass block" else none,
    fun code => if !strContains code "#pragma vertex" then
      some "Missing #pragma vertex directive" else none,
    fun code => if !strContains code "#pragma fragment" then
      some "Missing #pragma fragment directive" else none,
    fun code => if !strContains code "com.unity.render-pipelines" then
      some "Missing URP include (Packages/com.unity.render-pipelines.universal/...)"
      else none,
    fun code => if !strContains code "HLSLPROGRAM" then
      some "Missing HLSLPROGRAM block (using CGPROGRAM instead of HLSL?)" else none,
    fun code => if !strContains code "ENDHLSL" then
      some "Missing ENDHLSL" else none ]

/-- The deficiency list the spec checklist produces. -/
def spec_deficiencies (code : String) : List String :=
  spec_checklist.filterMap (fun item => item code)

theorem validation_deficiencies_eq_spec (code : String) :
    validation_deficiencies code = spec_deficiencies code := by
  unfold validation_deficiencies spec_deficiencies spec_checklist
  simp only [List.filterMap]
  cases h1 : strContains code "Shader \"" <;>
    cases h2 : strContains code "SubShader" <;>
    cases h3 : strContains code "Pass" <;>
    cases h4 : strContains code "#pragma vertex" <;>
    cases h5 : strContains code "#pragma fragment" <;>
    cases h6 : strContains code "com.unity.render-pipelines" <;>
    cases h7 : strContains code "HLSLPROGRAM" <;>
    cases h8 : strContains code "ENDHLSL" <;>
    rfl

/-- C6: the verdict of the Validation Gate is pass exactly when the
checklist produces zero deficiency strings, and the deficiency list is
exactly the one produced by the spec checklist (one independent item
per required element, each contributing zero or one string). -/
theorem validation_gate_pass_iff_no_deficiencies (s : ShaderGenState) :
    ((validate_shader s).validation_passed = true ↔
      (validate_shader s).validation_errors = []) ∧
    (validate_shader s).validation_errors = spec_deficiencies s.generated_code := by
  constructor
  · show (validation_deficiencies s.generated_code).isEmpty = true ↔
      validation_deficiencies s.generated_code = []
    exact List.isEmpty_iff
  · exact validation_deficiencies_eq_spec _

/-- C8: the Validation Gate is a pure deterministic function of the
artifact - two states carrying the same generated code receive the
same verdict and the same deficiency list (in the same order),
re-validating an already-validated state changes nothing, and no state
field other than the verdict, the deficiency list and the stage tag is
touched. -/
theorem validation_gate_pure (s t : ShaderGenState)
    (h : s.generated_code = t.generated_code) :
    ((validate_shader s).validation_passed =
        (validate_shader t).validation_passed ∧
      (validate_shader s).validation_errors =
        (validate_shader t).validation_errors) ∧
    ((validate_shader (validate_shader s)).validation_passed =
        (validate_shader s).validation_passed ∧
      (validate_shader (validate_shader s)).validation_errors =
        (validate_shader s).validation_errors) ∧
    ((validate_shader s).user_requirement = s.user_requirement ∧
      (validate_shader s).reference_image = s.reference_image ∧
      (validate_shader s).image_analysis = s.image_analysis ∧
      (validate_shader s).requirement_analysis = s.requirement_analysis ∧
      (validate_shader s).generated_code = s.generated_code ∧
      (validate_shader s).compile_result = s.compile_result ∧
      (validate_shader s).retry_count = s.retry_count ∧
      (validate_shader s).max_retries = s.max_retries ∧
      (validate_shader s).error_history = s.error_history ∧
      (validate_shader s).is_complete = s.is_complete ∧
      (validate_shader s).error = s.error) := by
  refine ⟨⟨?_, ?_⟩, ⟨rfl, rfl⟩,
    rfl, rfl, rfl, rfl, rfl, rfl, rfl, rfl, rfl, rfl, rfl⟩
  · show (validation_deficiencies s.generated_code).isEmpty =
      (validation_deficiencies t.generated_code).isEmpty
    rw [h]
  · show validation_deficiencies s.generated_code =
      validation_deficiencies t.generated_code
    rw [h]

/-- Witness for C8: two distinct states carrying the same artifact get
the same verdict. -/
theorem validation_gate_pure_witness :
    sWit.generated_code = tWit.generated_code ∧
    (validate_shader sWit).validation_passed =
      (validate_shader tWit).validation_passed :=
  ⟨rfl, (validation_gate_pure sWit tWit rfl).1.1⟩

/-- C10: `validate_shader` is total over its state (the embedding is a
function, matching the absence of any raising operation in the
source), and on the empty artifact it fails with exactly the eight
deficiency strings, one per checklist item. -/
theorem validate_shader_empty_artifact (s : ShaderGenState)
    (h : s.generated_code = "") :
    (validate_shader s).validation_passed = false ∧
    (validate_shader s).validation_errors =
      ["Missing Shader declaration", "Missing SubShader block",
       "Missing Pass block", "Missing #pragma vertex directive",
       "Missing #pragma fragment directive",
       "Missing URP include (Packages/com.unity.render-pipelines.universal/...)",
       "Missing HLSLPROGRAM block (using CGPROGRAM instead of HLSL?)",
       "Missing ENDHLSL"] ∧
    (validate_shader s).validation_errors.length = 8 := by
  refine ⟨?_, ?_, ?_⟩
  · show (validation_deficiencies s.generated_code).isEmpty = false
    rw [h]; decide
  · show validation_deficiencies s.generated_code = _
    rw [h]; decide
  · show (validation_deficiencies s.generated_code).length = 8
    rw [h]; decide

/-- Witness for C10: the empty-artifact case evaluated on a fresh
state. -/
theorem validate_shader_empty_artifact_witness :
    ({} : ShaderGenState).generated_code = "" ∧
    (validate_shader ({} : ShaderGenState)).validation_passed = false :=
  ⟨rfl, (validate_shader_empty_artifact {} rfl).1⟩

/-! Dictionary lemmas for the Correlator registration claims. -/

theorem dictGet_dictInsert_self (m : List (String × Nat)) (k : String) (v : Nat) :
    dictGet (dictInsert m k v) k = some v := by
  induction m with
  | nil => simp [dictInsert, dictGet]
  | cons hd tl ih =>
      obtain ⟨k', v'⟩ := hd
      by_cases hk : k' = k
      · simp [dictInsert, dictGet, hk]
      · simp [dictInsert, dictGet, hk, ih]

theorem dictGet_dictInsert_ne (m : List (String × Nat)) (k : String) (v : Nat)
    (a : String) (h : a ≠ k) : dictGet (dictInsert m k v) a = dictGet m a := by
  have hka : ¬ k = a := fun hh => h hh.symm
  induction m with
  | nil => simp [dictInsert, dictGet, hka]
  | cons hd tl ih =>
      obtain ⟨k', v'⟩ := hd
      by_cases hk : k' = k
      · subst hk
        simp [dictInsert, dictGet, hka]
      · simp [dictInsert, dictGet, hk, ih]

theorem mem_dictKeys_dictInsert (m : List (String × Nat)) (k : String) (v : Nat)
    (a : String) : a ∈ dictKeys (dictInsert m k v) ↔ a = k ∨ a ∈ dictKeys m := by
  induction m with
  | nil => simp [dictInsert, dictKeys]
  | cons hd tl ih =>
      obtain ⟨k', v'⟩ := hd
      by_cases hk : k' = k
      · subst hk
        simp [dictInsert, dictKeys] <;> tauto
      · simp [dictInsert, dictKeys, hk] at ih ⊢
        tauto

theorem dictKeys_dictInsert_nodup (m : List (String × Nat)) (k : String) (v : Nat)
    (h : (dictKeys m).Nodup) : (dictKeys (dictInsert m k v)).Nodup := by
  induction m with
  | nil => simp [dictInsert, dictKeys]
  | cons hd tl ih =>
      obtain ⟨k', v'⟩ := hd
      simp only [dictKeys, List.map_cons, List.nodup_cons] at h
      obtain ⟨hnot, htl⟩ := h
      by_cases hk : k' = k
      · subst hk
        have hins : dictInsert ((k', v') :: tl) k' v = (k', v) :: tl := by
          simp [dictInsert]
        rw [hins]
        simp only [dictKeys, List.map_cons, List.nodup_cons]
        exact ⟨by simpa using hnot, htl⟩
      · have hins : dictInsert ((k', v') :: tl) k v =
            (k', v') :: dictInsert tl k v := by
          simp [dictInsert, hk]
        rw [hins]
        simp only [dictKeys, List.map_cons, List.nodup_cons]
        refine ⟨?_, ih htl⟩
        intro hmem
        rcases (mem_dictKeys_dictInsert tl k v k').mp (by simpa [dictKeys] using hmem)
          with hh | hh
        · exact hk hh
        · exact hnot (by simpa [dictKeys] using hh)
/-- C4 counterexample: registering a callback for a correlation id that
is already registered does not fail - there is no `DuplicateCorrelation`
error anywhere in the code - and the existing entry is silently
overwritten by the plain dictionary assignment, for the confirmation
and the tool-call id space alike. -/
theorem register_duplicate_id_overwrites_silently :
    (register_confirm_callback (register_confirm_callback {} "confirm-1" 1)
      "confirm-1" 2).pending_confirms = [("confirm-1", 2)] ∧
    (register_tool_callback (register_tool_callback {} "call-1" 1)
      "call-1" 2).pending_tool_calls = [("call-1", 2)] := by
  decide

/-- C4 (amended): registration of a callback never fails; a second
registration under a live id silently replaces the existing entry
(last registration wins), other ids are untouched, and - dictionary
semantics - at most one entry per id exists at any time (key
uniqueness is preserved). -/
theorem register_callback_replaces (st : HandlerState) (id : String) (cb : Nat)
    (hc : (dictKeys st.pending_confirms).Nodup)
    (ht : (dictKeys st.pending_tool_calls).Nodup) :
    dictGet (register_confirm_callback st id cb).pending_confirms id = some cb ∧
    dictGet (register_tool_callback st id cb).pending_tool_calls id = some cb ∧
    (∀ a, a ≠ id →
      dictGet (register_confirm_callback st id cb).pending_confirms a =
        dictGet st.pending_confirms a) ∧
    (∀ a, a ≠ id →
      dictGet (register_tool_callback st id cb).pending_tool_calls a =
        dictGet st.pending_tool_calls a) ∧
    (dictKeys (register_confirm_callback st id cb).pending_confirms).Nodup ∧
    (dictKeys (register_tool_callback st id cb).pending_tool_calls).Nodup := by
  refine ⟨dictGet_dictInsert_self _ _ _, dictGet_dictInsert_self _ _ _,
    fun a ha => dictGet_dictInsert_ne _ _ _ _ ha,
    fun a ha => dictGet_dictInsert_ne _ _ _ _ ha,
    dictKeys_dictInsert_nodup _ _ _ hc,
    dictKeys_dictInsert_nodup _ _ _ ht⟩

/-- Witness for C4 (amended): a duplicate registration on a singleton
map evaluated concretely. -/
theorem register_callback_replaces_witness :
    ((dictKeys (register_confirm_callback {} "confirm-1" 1).pending_confirms).Nodup ∧
      (dictKeys (register_confirm_callback {} "confirm-1" 1).pending_tool_calls).Nodup) ∧
    dictGet (register_confirm_callback (register_confirm_callback {} "confirm-1" 1)
      "confirm-1" 2).pending_confirms "confirm-1" = some 2 :=
  ⟨⟨by decide, by decide⟩,
   (register_callback_replaces (register_confirm_callback {} "confirm-1" 1)
     "confirm-1" 2 (by decide) (by decide)).1⟩

/-- C5 (code bug): a well-formed `TOOL_RESPONSE` whose id matches no
outstanding callback does not get logged and dropped: `handle_message`
raises an `AttributeError` out of `_handle_tool_response`, because the
handler reads `payload.request_id` while `ToolResponsePayload` (and
the repository's own contract tests) define the field `tool_call_id`.
The `CONFIRM_RESPONSE` path behaves as the claim says: unknown id,
no error, nothing returned, handler state unchanged. -/
theorem tool_response_unknown_id_raises :
    handle_message envH0 {} toolRespRaw =
      .raised "AttributeError: ToolResponsePayload object has no attribute request_id"
        ({} : HandlerState) ∧
    handle_message envH0 {} confirmRespRaw = .returned none ({} : HandlerState) :=
  ⟨rfl, rfl⟩

/-- C9 counterexample: the input `5` is well-formed JSON that fails
structural validation, yet `handle_message` does not return a
`PARSE_ERROR`: the membership test `"type" not in data` raises
`TypeError` on a non-container value, and `handle_message` only
catches `MessageParseError`. -/
theorem non_container_json_raises :
    handle_message envH0 {} (.parsed (.num 5)) =
      .raised "TypeError: argument of type int is not iterable"
        ({} : HandlerState) := rfl

/-- C9 (amended): malformed JSON always yields a returned
`ERROR PARSE_ERROR` (handler state untouched); any structural-
validation failure whose JSON top level is an object, array or string
likewise yields `PARSE_ERROR` and never a raise; an unknown top-level
type tag on a well-formed envelope yields `ERROR
UNKNOWN_MESSAGE_TYPE`; but a top-level JSON number, boolean or null
instead raises `TypeError` out of the handler (see the
counterexample). -/
theorem handler_error_codes (env : HandlerEnv) (st : HandlerState) :
    (∀ e, handle_message env st (.malformed e) =
      .returned (some (create_error_message "PARSE_ERROR"
        ("Invalid JSON: " ++ e) true)) st) ∧
    (∀ j e, parse_message (.parsed j) = .parseErr e →
      handle_message env st (.parsed j) =
        .returned (some (create_error_message "PARSE_ERROR" e true)) st) ∧
    (∀ j m, parse_message (.parsed j) = .ok m →
      MessageType.fromTag m.type = none →
      handle_message env st (.parsed j) =
        .returned (some (create_error_message "UNKNOWN_MESSAGE_TYPE"
          ("Unknown message type: " ++ m.type) true)) st) ∧
    (∀ fields e, parse_message (.parsed (.obj fields)) ≠ .typeErr e) ∧
    (∀ elems e, parse_message (.parsed (.arr elems)) ≠ .typeErr e) ∧
    (∀ s e, parse_message (.parsed (.str s)) ≠ .typeErr e) := by
  refine ⟨fun e => rfl, fun j e h => ?_, fun j m h hm => ?_, ?_, ?_, ?_⟩
  · unfold handle_message
    rw [h]
  · unfold handle_message
    rw [h]
    simp only [hm]
  · intro fields e h
    have hev : parse_message (.parsed (.obj fields)) =
        (if (jLookup fields "type").isNone then
          ParseOutcome.parseErr "Missing type field"
        else match baseMessageValidate (.obj fields) with
          | some m => ParseOutcome.ok m
          | none => ParseOutcome.parseErr "Invalid message structure") := rfl
    rw [hev] at h
    split at h
    · simp at h
    · cases hb : baseMessageValidate (JValue.obj fields) <;> rw [hb] at h <;>
        simp at h
  · intro elems e h
    have hev : parse_message (.parsed (.arr elems)) =
        (if !(elems.any jIsTypeStr) then
          ParseOutcome.parseErr "Missing type field"
        else match baseMessageValidate (.arr elems) with
          | some m => ParseOutcome.ok m
          | none => ParseOutcome.parseErr "Invalid message structure") := rfl
    rw [hev] at h
    split at h
    · simp at h
    · cases hb : baseMessageValidate (JValue.arr elems) <;> rw [hb] at h <;>
        simp at h
  · intro s e h
    have hev : parse_message (.parsed (.str s)) =
        (if !(strContains s "type") then
          ParseOutcome.parseErr "Missing type field"
        else match baseMessageValidate (.str s) with
          | some m => ParseOutcome.ok m
          | none => ParseOutcome.parseErr "Invalid message structure") := rfl
    rw [hev] at h
    split at h
    · simp at h
    · cases hb : baseMessageValidate (JValue.str s) <;> rw [hb] at h <;>
        simp at h

/-- Witness for C9 (amended): a malformed frame, an unknown-type
envelope and an empty-array frame evaluated concretely. -/
theorem handler_error_codes_witness :
    handle_message envH0 {} (.malformed "bad frame") =
      .returned (some (create_error_message "PARSE_ERROR"
        ("Invalid JSON: " ++ "bad frame") true)) ({} : HandlerState) ∧
    handle_message envH0 {} (.parsed (.obj [("type", .str "BOGUS")])) =
      .returned (some (create_error_message "UNKNOWN_MESSAGE_TYPE"
        ("Unknown message type: " ++ "BOGUS") true)) ({} : HandlerState) ∧
    handle_message envH0 {} (.parsed (.arr [])) =
      .returned (some (create_error_message "PARSE_ERROR"
        "Missing type field" true)) ({} : HandlerState) :=
  ⟨(handler_error_codes envH0 {}).1 "bad frame",
   (handler_error_codes envH0 {}).2.2.1 _ { type := "BOGUS" } rfl rfl,
   (handler_error_codes envH0 {}).2.1 _ "Missing type field" rfl⟩

end ShaderCopilot
